import Mathlib

/-!
Shallow embedding of src/librelay/librelay.py (the LibRelay02 relay-board
client) and proofs about it.

Modelling choices:
- Python dictionary command descriptors become the inductive PyVal; the
  membership test (k in v) and subscript (v[k]) carry their Python error
  semantics (TypeError on non-container, KeyError on a missing dict key)
  through the Except monad.
- The pyserial handle becomes an explicit Transport record threaded through
  the operations; write/read/sleep are recorded in an event trace so that
  statements about exactly which bytes cross the wire can be made.  write
  returns the number of bytes written (as pyserial does), read n returns the
  next n bytes of the mock receive stream.
- The worker thread loop (LibRelay02.run) becomes runLoop over a finite list
  of queued commands; an exception escaping _analyse ends the loop (the
  thread dies), which the third component of the result records.
- The lifecycle methods (__init__/setup/quit/__clear_queue and the queue
  setters) act on a RelayState record; quit returns Except because its body
  dereferences fields that may still be None.  On the raising paths the
  model reports only the exception, not the partially mutated state.
- getattr(self, content.lower()) reaches, in the source, every attribute of
  the instance.  The model enumerates the relay vocabulary (resolveOp) and
  the one attribute whose call re-enters the dispatcher (run, handled by
  runLoopD); universal statements about whole command queues carry a
  contentInModel hypothesis confining contents to that vocabulary, because
  contents naming other attributes (SETUP re-opens the port, __INIT__
  resets the queues, Thread methods, data fields) have instance-level side
  effects this embedding does not track.
-/

/-- Python runtime errors that the translated code can raise. -/
inductive PyErr
  | typeError
  | keyError
  | attributeError
  deriving DecidableEq, Repr

/-- Python values as far as the relay library manipulates them: command
descriptors are dicts with string keys, actions and contents are strings,
results are ints (write counts) or bytes (query responses). -/
inductive PyVal
  | str : String → PyVal
  | int : Int → PyVal
  | bytes : List Nat → PyVal
  | none : PyVal
  | dict : List (String × PyVal) → PyVal

/-- Does the character list pat occur at the head of s? -/
def charsStartWith : List Char → List Char → Bool
  | [], _ => true
  | _ :: _, [] => false
  | p :: ps, c :: cs => p == c && charsStartWith ps cs

/-- Does the character list pat occur anywhere inside s? -/
def charsContain (pat : List Char) : List Char → Bool
  | [] => charsStartWith pat []
  | c :: cs => charsStartWith pat (c :: cs) || charsContain pat cs

/-- Python substring containment: pat in s for strings. -/
def strContains (s pat : String) : Bool :=
  charsContain pat.toList s.toList

/-- Python membership k in v for a string literal k: key lookup on a dict,
substring test on a string, TypeError on the other relay-relevant values
(int, None and bytes all raise TypeError for a string needle). -/
def pyMemStr (k : String) : PyVal → Except PyErr Bool
  | .dict entries => .ok (entries.any fun e => e.1 == k)
  | .str s => .ok (strContains s k)
  | _ => .error .typeError

/-- Python subscript v[k] for a string literal k: dict lookup raising
KeyError when absent, TypeError on non-dict values (string indices must be
integers, int/None/bytes are not subscriptable by a string). -/
def pySubscript (k : String) : PyVal → Except PyErr PyVal
  | .dict entries =>
      match entries.lookup k with
      | some v => .ok v
      | Option.none => .error .keyError
  | _ => .error .typeError

/-- Events on the serial channel, in order: a write of a byte sequence, the
fixed 100 ms settle sleep, a read of a requested size. -/
inductive TEvent
  | write : List Nat → TEvent
  | sleep : TEvent
  | read : Nat → TEvent
  deriving DecidableEq, Repr

/-- The open serial handle: a mock receive stream feeding reads, the trace
of channel events performed so far, and whether close() has been called. -/
structure Transport where
  rxStream : List Nat
  trace : List TEvent
  closed : Bool
  deriving DecidableEq, Repr

/-- serial.Serial.write: records the write and returns the byte count. -/
def serialWrite (t : Transport) (bs : List Nat) : Nat × Transport :=
  (bs.length, { t with trace := t.trace ++ [TEvent.write bs] })

/-- time.sleep(0.1): the fixed settle delay, recorded in the trace. -/
def sleepSettle (t : Transport) : Transport :=
  { t with trace := t.trace ++ [TEvent.sleep] }

/-- serial.Serial.read(size=n): consumes n bytes of the receive stream. -/
def serialRead (t : Transport) (n : Nat) : List Nat × Transport :=
  (t.rxStream.take n,
   { t with rxStream := t.rxStream.drop n, trace := t.trace ++ [TEvent.read n] })

/-- serial.Serial.close. -/
def closeTransport (t : Transport) : Transport :=
  { t with closed := true }

/-- struct.pack with one unsigned byte. -/
def packB (v : Nat) : List Nat :=
  [v % 256]

/-- Values to send to the relay to actually set the state (enum RelayStates). -/
inductive RelayStates
  | ALL_ON
  | ALL_OFF
  | ONE_ON
  | ONE_OFF
  | TWO_ON
  | TWO_OFF
  deriving DecidableEq, Repr, Fintype

/-- The numeric value of each RelayStates member. -/
def RelayStates.value : RelayStates → Nat
  | .ALL_ON => 100
  | .ALL_OFF => 110
  | .ONE_ON => 101
  | .ONE_OFF => 111
  | .TWO_ON => 102
  | .TWO_OFF => 112

/-- Values to send to the relay to get info (enum RelayQueries). -/
inductive RelayQueries
  | VERSION
  | STATUS
  deriving DecidableEq, Repr, Fintype

/-- The numeric value of each RelayQueries member. -/
def RelayQueries.value : RelayQueries → Nat
  | .VERSION => 90
  | .STATUS => 91

/-- A protocol symbol: a relay-state member or a query member. -/
abbrev WireSymbol := RelayStates ⊕ RelayQueries

/-- The numeric wire value of a symbol. -/
def symbolValue : WireSymbol → Nat
  | .inl s => s.value
  | .inr q => q.value

/-- The byte sequence struct.pack sends on the wire for a symbol. -/
def encodeSymbol (s : WireSymbol) : List Nat :=
  packB (symbolValue s)

/-- LibRelay02.version: write byte 90, settle, read exactly 2 bytes and
return them. -/
def version (t : Transport) : List Nat × Transport :=
  let w := serialWrite t (packB RelayQueries.VERSION.value)
  let t2 := sleepSettle w.2
  serialRead t2 2

/-- LibRelay02.status: write byte 91, settle, read exactly 1 byte and
return it. -/
def status (t : Transport) : List Nat × Transport :=
  let w := serialWrite t (packB RelayQueries.STATUS.value)
  let t2 := sleepSettle w.2
  serialRead t2 1

/-- The body of the functions synthesised by _populate_relay_states_apis:
write the state byte, settle, and return the write result (no read). -/
def stateCommand (value : Nat) (t : Transport) : Nat × Transport :=
  let w := serialWrite t (packB value)
  (w.1, sleepSettle w.2)

/-- Python str.lower(): lower-case every character. -/
def pyLower (s : String) : String :=
  String.mk (s.data.map Char.toLower)

/-- The zero-argument relay operations reachable through getattr in
_analyse: the six state setters installed by _populate_relay_states_apis
under the lower-cased RelayStates member names, plus the version and status
methods. -/
inductive RelayOp
  | all_on
  | all_off
  | one_on
  | one_off
  | two_on
  | two_off
  | version
  | status
  deriving DecidableEq, Repr

/-- The relay-operation table: the six state setters installed by
_populate_relay_states_apis under the lower-cased RelayStates member names,
plus the version and status bound methods.  In the source getattr reaches
every other instance attribute as well (setup, quit, run, the Thread
machinery, data fields, dunders); of those only run is modelled (by
runLoopD), theorems that quantify over arbitrary commands restrict the
contents with contentInModel accordingly, and a name outside the table is
treated here like the caught AttributeError of a missing attribute. -/
def resolveOp (name : String) : Option RelayOp :=
  if name == "all_on" then some .all_on
  else if name == "all_off" then some .all_off
  else if name == "one_on" then some .one_on
  else if name == "one_off" then some .one_off
  else if name == "two_on" then some .two_on
  else if name == "two_off" then some .two_off
  else if name == "version" then some .version
  else if name == "status" then some .status
  else Option.none

/-- Run one relay operation against the transport, producing the Python
value the call returns: the write count for state setters, the bytes read
for queries. -/
def execOp : RelayOp → Transport → PyVal × Transport
  | .all_on, t => let r := stateCommand RelayStates.ALL_ON.value t; (.int r.1, r.2)
  | .all_off, t => let r := stateCommand RelayStates.ALL_OFF.value t; (.int r.1, r.2)
  | .one_on, t => let r := stateCommand RelayStates.ONE_ON.value t; (.int r.1, r.2)
  | .one_off, t => let r := stateCommand RelayStates.ONE_OFF.value t; (.int r.1, r.2)
  | .two_on, t => let r := stateCommand RelayStates.TWO_ON.value t; (.int r.1, r.2)
  | .two_off, t => let r := stateCommand RelayStates.TWO_OFF.value t; (.int r.1, r.2)
  | .version, t => let r := version t; (.bytes r.1, r.2)
  | .status, t => let r := status t; (.bytes r.1, r.2)

/-- The try block of _analyse: look up command["content"], lower-case it and
call the attribute of that name.  Every exception inside (KeyError on a
missing content key, AttributeError on a non-string content or on a name
that is no attribute of the instance) is caught and turned into an absent
result.  Faithful for contents satisfying contentInModel; a content that
names an unmodelled instance attribute is outside this function's scope,
and a content naming run is handled by runLoopD. -/
def tryResolveAndRun (command : PyVal) (t : Transport) : Option PyVal × Transport :=
  match pySubscript "content" command with
  | .error _ => (Option.none, t)
  | .ok (.str s) =>
      match resolveOp (pyLower s) with
      | some op => let r := execOp op t; (some r.1, r.2)
      | Option.none => (Option.none, t)
  | .ok _ => (Option.none, t)

/-- LibRelay02._analyse: reject (returning None) when the action key is
absent or when the action contains neither SET_STATE nor QUERY as a
substring, then resolve and run the content inside a try.  The two guard
checks run outside the try, so a TypeError they raise escapes. -/
def analyse (command : PyVal) (t : Transport) :
    Except PyErr (Option PyVal × Transport) := do
  let hasAction ← pyMemStr "action" command
  if !hasAction then
    return (Option.none, t)
  let actionVal ← pySubscript "action" command
  let isSet ← pyMemStr "SET_STATE" actionVal
  let isQuery ← pyMemStr "QUERY" actionVal
  if !isSet && !isQuery then
    return (Option.none, t)
  return tryResolveAndRun command t

/-- LibRelay02.run over a finite queue of pending commands: pull each
command in order, analyse it and put the result (None included) on the
output queue.  An exception escaping _analyse kills the thread: no further
command is consumed and the escaping error is reported in the third
component. -/
def runLoop : List PyVal → Transport → List (Option PyVal) × Transport × Option PyErr
  | [], t => ([], t, Option.none)
  | c :: cs, t =>
      match analyse c t with
      | .error e => ([], t, some e)
      | .ok (res, t2) =>
          let rest := runLoop cs t2
          (res :: rest.1, rest.2.1, rest.2.2)

/-- The transport state after the worker has executed the first i commands
of the queue (stopping early if a command kills the thread). -/
def stateAfter : List PyVal → Transport → Nat → Transport
  | _, t, 0 => t
  | [], t, _ + 1 => t
  | c :: cs, t, i + 1 =>
      match analyse c t with
      | .ok r => stateAfter cs r.2 i
      | .error _ => t

/-- Parity constants of pyserial. -/
inductive Parity
  | PARITY_NONE
  | PARITY_EVEN
  | PARITY_ODD
  deriving DecidableEq, Repr

/-- The keyword configuration LibRelay02.setup passes to serial.Serial. -/
structure SerialConfig where
  parity : Parity
  bytesize : Nat
  stopbits : Nat
  deriving DecidableEq, Repr

/-- The environment in which serial.Serial is called: given the device path,
the baud rate and the configuration, either an open handle or the raised
open error (device missing, permission denied, already in use, ...). -/
def SerialEnv : Type :=
  String → Nat → SerialConfig → Except String Transport

/-- The fields of a LibRelay02 instance: device and bauds from the
constructor, the running flag, the optional serial handle and the two
optional queues (all three start as None). -/
structure RelayState where
  device : String
  bauds : Nat
  running : Bool
  filedesc : Option Transport
  inputQueue : Option (List PyVal)
  outputQueue : Option (List (Option PyVal))

/-- LibRelay02.__init__: stores device and bauds, sets running, leaves the
handle and both queues None. -/
def LibRelay02.init (device : String) (bauds : Nat) : RelayState :=
  { device := device, bauds := bauds, running := true,
    filedesc := Option.none, inputQueue := Option.none, outputQueue := Option.none }

/-- LibRelay02.set_input_queue. -/
def set_input_queue (st : RelayState) (q : List PyVal) : RelayState :=
  { st with inputQueue := some q }

/-- LibRelay02.set_output_queue. -/
def set_output_queue (st : RelayState) (q : List (Option PyVal)) : RelayState :=
  { st with outputQueue := some q }

/-- The exact configuration setup passes: 8 data bits, no parity, 1 stop
bit. -/
def serialCfg : SerialConfig :=
  { parity := Parity.PARITY_NONE, bytesize := 8, stopbits := 1 }

/-- LibRelay02.setup: open serial.Serial(device, bauds, parity=PARITY_NONE,
bytesize=8, stopbits=1); on success store the handle and return True, on an
exception print it and return False without assigning the handle. -/
def setup (env : SerialEnv) (st : RelayState) : Bool × RelayState :=
  match env st.device st.bauds serialCfg with
  | .ok fd => (true, { st with filedesc := some fd })
  | .error _ => (false, st)

/-- LibRelay02.__clear_queue: pop until the queue is empty. -/
def clearQueue : List PyVal → List PyVal
  | [] => []
  | _ :: rest => clearQueue rest

/-- LibRelay02.quit: clear self._running, drain the input queue, close the
handle.  Both self._input_queue and self._filedesc are dereferenced without
a None check, so quit raises AttributeError when either is still None (the
model reports the exception and drops the partial mutations made before the
raise). -/
def quit (st : RelayState) : Except PyErr RelayState :=
  match st.inputQueue with
  | Option.none => .error .attributeError
  | some q =>
      match st.filedesc with
      | Option.none => .error .attributeError
      | some fd =>
          .ok { st with running := false,
                        inputQueue := some (clearQueue q),
                        filedesc := some (closeTransport fd) }

/-- A fresh mock transport with the given receive stream. -/
def mockTransport (rx : List Nat) : Transport :=
  { rxStream := rx, trace := [], closed := false }

/-- Commands the C1 sentence of the spec calls invalid: a dict without the
action key, or one whose action string contains neither SET_STATE nor QUERY
as a substring (the exact guard _analyse evaluates without raising). -/
def invalidCmd : PyVal → Bool
  | .dict entries =>
      match entries.lookup "action" with
      | Option.none => true
      | some (.str a) => !(strContains a "SET_STATE") && !(strContains a "QUERY")
      | some _ => false
  | _ => false

/-- The exact command shapes on which the guards of _analyse do not raise:
a dict whose action entry, when present, is a string or a dict (both
support the membership test), or a string that does not contain action as a
substring (its membership test returns False and the command is rejected
before the raising subscript).  Every other shape raises a TypeError in the
guard code outside the try block. -/
def safeShape : PyVal → Bool
  | .dict entries =>
      match entries.lookup "action" with
      | Option.none => true
      | some (.str _) => true
      | some (.dict _) => true
      | some _ => false
  | .str s => !(strContains s "action")
  | _ => false

/-- A serial environment in which opening the device always raises. -/
def envFail : SerialEnv := fun _ _ _ => .error "could not open port"

/-- The state quit leaves behind on its non-raising path: stopped, input
queue drained, transport closed, everything else untouched. -/
def quitResult (st : RelayState) (fd : Transport) : RelayState :=
  { st with
      running := false, inputQueue := some [], filedesc := some (closeTransport fd) }

/-- A fully attached dispatcher with one pending command, for witnesses. -/
def quitReadyState : RelayState :=
  { device := "/dev/ttyACM0", bauds := 115200, running := true,
    filedesc := some (mockTransport []),
    inputQueue := some [PyVal.dict [("action", PyVal.str "QUERY"), ("content", PyVal.str "STATUS")]],
    outputQueue := some [] }

/-- Contents on which the relay-fragment model of the try block is
faithful: a missing content key (KeyError, caught), a non-string content
(its lower() raises AttributeError, caught), or a string that lower-cases
to one of the eight relay operation names.  A string content outside this
vocabulary reaches getattr over the whole instance in the source (SETUP
re-opens the port, __INIT__ resets the queues, RUN re-enters the loop), so
statements about whole command queues are asserted only under this
predicate. -/
def contentInModel : PyVal → Bool
  | .dict entries =>
      match entries.lookup "content" with
      | some (.str s) => (resolveOp (pyLower s)).isSome
      | some _ => true
      | Option.none => true
  | _ => true

/-- Does the command carry a content string that lower-cases to run, the
name of the worker's own loop method? -/
def contentIsRun : PyVal → Bool
  | .dict entries =>
      match entries.lookup "content" with
      | some (.str s) => pyLower s == "run"
      | _ => false
  | _ => false

/-- Do the two guard checks of _analyse accept the command, so that control
reaches the try block? -/
def reachesTry (c : PyVal) : Bool :=
  match pyMemStr "action" c with
  | .ok true =>
      match pySubscript "action" c with
      | .ok av =>
          match pyMemStr "SET_STATE" av, pyMemStr "QUERY" av with
          | .ok s, .ok q => s || q
          | _, _ => false
      | .error _ => false
  | _ => false

/-- How a finite run of the worker ends: the queue is drained and the
worker sits at its blocking get (drained); the worker is blocked at a get
inside a re-entered run call that can never return (stuck); or an
exception escaped the loop and the thread died (died). -/
inductive LoopEnd
  | drained
  | stuck
  | died (e : PyErr)
  deriving DecidableEq, Repr

/-- LibRelay02.run refined with the one instance attribute whose call
re-enters the dispatcher: a guard-accepted content naming run makes the
worker call run() from inside the try of _analyse, one loop level deeper,
counted by the depth argument.  A deeper level consumes the same input
queue and produces on the same output queue; the re-entered command itself
has produced no output yet.  When the queue drains at depth > 0 the nested
get blocks forever (stuck).  An exception at depth > 0 escapes one run call
only: the try of the enclosing _analyse catches it, the enclosing level
puts the absent result of its run command and resumes consuming the queue;
at depth 0 it kills the thread. -/
def runLoopD : List PyVal → Transport → Nat → List (Option PyVal) × Transport × LoopEnd
  | [], t, 0 => ([], t, LoopEnd.drained)
  | [], t, _ + 1 => ([], t, LoopEnd.stuck)
  | c :: cs, t, depth =>
      if reachesTry c && contentIsRun c then
        runLoopD cs t (depth + 1)
      else
        match analyse c t, depth with
        | .error e, 0 => ([], t, LoopEnd.died e)
        | .error _, d + 1 =>
            let r := runLoopD cs t d
            (Option.none :: r.1, r.2)
        | .ok res, d =>
            let r := runLoopD cs res.2 d
            (res.1 :: r.1, r.2)

/-- Translates the end of the relay-fragment loop into the refined marker:
a clean end of input is drained, an escaped exception is died. -/
def loopEndOfErr : Option PyErr → LoopEnd
  | Option.none => LoopEnd.drained
  | some e => LoopEnd.died e

/-- C3: every protocol symbol is sent on the wire as its documented fixed
byte (ALL_ON=100, ALL_OFF=110, ONE_ON=101, ONE_OFF=111, TWO_ON=102,
TWO_OFF=112, VERSION=90, STATUS=91) and the encoding is injective: no two
distinct symbols share a byte. -/
theorem encodeSymbol_fixed_and_injective :
    encodeSymbol (Sum.inl RelayStates.ALL_ON) = [100] ∧
    encodeSymbol (Sum.inl RelayStates.ALL_OFF) = [110] ∧
    encodeSymbol (Sum.inl RelayStates.ONE_ON) = [101] ∧
    encodeSymbol (Sum.inl RelayStates.ONE_OFF) = [111] ∧
    encodeSymbol (Sum.inl RelayStates.TWO_ON) = [102] ∧
    encodeSymbol (Sum.inl RelayStates.TWO_OFF) = [112] ∧
    encodeSymbol (Sum.inr RelayQueries.VERSION) = [90] ∧
    encodeSymbol (Sum.inr RelayQueries.STATUS) = [91] ∧
    Function.Injective encodeSymbol := by
  refine ⟨rfl, rfl, rfl, rfl, rfl, rfl, rfl, rfl, ?_⟩
  decide

/-- C4: version performs exactly one write of the byte 90, the settle
sleep, then a read of exactly 2 bytes and returns them; status writes the
byte 91 then reads exactly 1 byte and returns it; dispatching the command
with action QUERY and content VERSION against a transport whose read
yields the bytes 1, 2 puts exactly those bytes on the output queue. -/
theorem version_status_wire_exchange :
    (∀ t : Transport,
        version t = (t.rxStream.take 2,
          { rxStream := t.rxStream.drop 2,
            trace := t.trace ++ [TEvent.write [90]] ++ [TEvent.sleep] ++ [TEvent.read 2],
            closed := t.closed })) ∧
    (∀ t : Transport,
        status t = (t.rxStream.take 1,
          { rxStream := t.rxStream.drop 1,
            trace := t.trace ++ [TEvent.write [91]] ++ [TEvent.sleep] ++ [TEvent.read 1],
            closed := t.closed })) ∧
    runLoop [PyVal.dict [("action", PyVal.str "QUERY"), ("content", PyVal.str "VERSION")]]
        (mockTransport [1, 2])
      = ([some (PyVal.bytes [1, 2])],
         { rxStream := [], trace := [TEvent.write [90], TEvent.sleep, TEvent.read 2],
           closed := false }, Option.none) :=
  ⟨fun _ => rfl, fun _ => rfl, rfl⟩

/-- C5: dispatching the command with action SET_STATE and content ALL_ON
writes exactly the byte sequence 100, performs no read (the receive stream
is untouched and the trace gains only a write and the settle sleep), and
the value pushed to the output queue is the return value of the transport
write call (the byte count, here 1), not a device acknowledgment. -/
theorem set_state_result_is_write_return :
    (∀ t : Transport,
        analyse (PyVal.dict [("action", PyVal.str "SET_STATE"), ("content", PyVal.str "ALL_ON")]) t
          = .ok (some (PyVal.int (serialWrite t (packB RelayStates.ALL_ON.value)).1),
                 { rxStream := t.rxStream,
                   trace := t.trace ++ [TEvent.write [100]] ++ [TEvent.sleep],
                   closed := t.closed })) ∧
    runLoop [PyVal.dict [("action", PyVal.str "SET_STATE"), ("content", PyVal.str "ALL_ON")]]
        (mockTransport [])
      = ([some (PyVal.int 1)],
         { rxStream := [], trace := [TEvent.write [100], TEvent.sleep], closed := false },
         Option.none) :=
  ⟨fun _ => rfl, rfl⟩

/-- Bridging fact: the any-based key test pyMemStr performs agrees with the
lookup pySubscript performs on the same entry list. -/
lemma lookup_isSome_eq_any (entries : List (String × PyVal)) (k : String) :
    (entries.lookup k).isSome = entries.any fun e => e.1 == k := by
  induction entries with
  | nil => rfl
  | cons e rest ih =>
    obtain ⟨key, v⟩ := e
    by_cases h : key = k
    · subst h
      simp [List.lookup_cons]
    · have h1 : (k == key) = false := by simp [Ne.symm h]
      have h2 : (key == k) = false := by simp [h]
      simp [List.lookup_cons, h1, h2, ih]

/-- On a command the guard of _analyse rejects, _analyse returns None and
leaves the transport untouched. -/
lemma analyse_invalid (c : PyVal) (t : Transport) (h : invalidCmd c = true) :
    analyse c t = .ok (Option.none, t) := by
  cases c with
  | dict entries =>
    cases hL : entries.lookup "action" with
    | none =>
      have hAny : (entries.any fun e => e.1 == "action") = false := by
        rw [← lookup_isSome_eq_any, hL]; rfl
      simp [analyse, pyMemStr, hAny, Bind.bind, Except.bind, pure, Except.pure]
    | some v =>
      have hAny : (entries.any fun e => e.1 == "action") = true := by
        rw [← lookup_isSome_eq_any, hL]; rfl
      simp only [invalidCmd] at h
      rw [hL] at h
      cases v with
      | str a =>
        simp only [Bool.and_eq_true, Bool.not_eq_eq_eq_not, Bool.not_true] at h
        simp [analyse, pyMemStr, pySubscript, hAny, hL, h.1, h.2,
              Bind.bind, Except.bind, pure, Except.pure]
      | int i => simp at h
      | bytes bs => simp at h
      | none => simp at h
      | dict d => simp at h
  | str s => simp [invalidCmd] at h
  | int i => simp [invalidCmd] at h
  | bytes bs => simp [invalidCmd] at h
  | none => simp [invalidCmd] at h

/-- C1 (amended): for a command descriptor lacking the action key, or whose
action string contains neither SET_STATE nor QUERY, the worker enqueues
None (not nothing) onto the output queue for that command, touches the
transport not at all, and processes the subsequent commands exactly as it
would have without the invalid one. -/
theorem invalid_command_enqueues_none_and_loop_continues
    (c : PyVal) (cs : List PyVal) (t : Transport) (h : invalidCmd c = true) :
    runLoop (c :: cs) t = (Option.none :: (runLoop cs t).1, (runLoop cs t).2) := by
  simp [runLoop, analyse_invalid c t h]

/-- C1 counterexample: after the worker consumes the single action-less
command (the empty dict), the output queue holds one entry (the value
None); it is not empty, refuting that nothing is enqueued. -/
theorem c1_counterexample_none_is_enqueued :
    (runLoop [PyVal.dict []] (mockTransport [])).1 = [Option.none] ∧
    (runLoop [PyVal.dict []] (mockTransport [])).1 ≠ [] :=
  ⟨rfl, fun hh => nomatch hh⟩

/-- Witness for C1: the empty-dict command yields a None entry and the
status query behind it is dispatched undisturbed. -/
theorem c1_witness :
    runLoop [PyVal.dict [],
             PyVal.dict [("action", PyVal.str "QUERY"), ("content", PyVal.str "STATUS")]]
        (mockTransport [7])
      = (Option.none ::
          (runLoop [PyVal.dict [("action", PyVal.str "QUERY"), ("content", PyVal.str "STATUS")]]
            (mockTransport [7])).1,
         (runLoop [PyVal.dict [("action", PyVal.str "QUERY"), ("content", PyVal.str "STATUS")]]
            (mockTransport [7])).2) :=
  invalid_command_enqueues_none_and_loop_continues _ _ _ (by decide)

/-- An exception escapes _analyse exactly on the unsafe shapes: every
raise site sits in the guard code before the try, and everything inside the
try is caught, whatever the content resolves to.  (For a content that
re-enters run, ok records only that no exception escapes; the non-return of
that call is tracked by runLoopD.) -/
lemma analyse_isOk_eq_safeShape (c : PyVal) (t : Transport) :
    (analyse c t).isOk = safeShape c := by
  cases c with
  | dict entries =>
    cases hL : entries.lookup "action" with
    | none =>
      have hAny : (entries.any fun e => e.1 == "action") = false := by
        rw [← lookup_isSome_eq_any, hL]; rfl
      simp [analyse, pyMemStr, safeShape, hL, hAny, Bind.bind, Except.bind, pure,
            Except.pure, Except.isOk, Except.toBool]
    | some v =>
      have hAny : (entries.any fun e => e.1 == "action") = true := by
        rw [← lookup_isSome_eq_any, hL]; rfl
      cases v with
      | str a =>
        simp only [analyse, pyMemStr, pySubscript, hAny, hL, safeShape, Bind.bind,
                   Except.bind, pure, Except.pure]
        cases hS : (!strContains a "SET_STATE" && !strContains a "QUERY") <;>
          simp [hS, Except.isOk, Except.toBool]
      | dict d =>
        simp only [analyse, pyMemStr, pySubscript, hAny, hL, safeShape, Bind.bind,
                   Except.bind, pure, Except.pure]
        cases hS : (!(d.any fun e => e.1 == "SET_STATE") && !(d.any fun e => e.1 == "QUERY")) <;>
          simp [hS, Except.isOk, Except.toBool]
      | int i =>
        simp [analyse, pyMemStr, pySubscript, hAny, hL, safeShape, Bind.bind,
              Except.bind, pure, Except.pure, Except.isOk, Except.toBool]
      | bytes bs =>
        simp [analyse, pyMemStr, pySubscript, hAny, hL, safeShape, Bind.bind,
              Except.bind, pure, Except.pure, Except.isOk, Except.toBool]
      | none =>
        simp [analyse, pyMemStr, pySubscript, hAny, hL, safeShape, Bind.bind,
              Except.bind, pure, Except.pure, Except.isOk, Except.toBool]
  | str s =>
    cases hS : strContains s "action" <;>
      simp [analyse, pyMemStr, pySubscript, hS, safeShape, Bind.bind, Except.bind,
            pure, Except.pure, Except.isOk, Except.toBool]
  | int i => rfl
  | bytes bs => rfl
  | none => rfl

/-- C2 (amended): an exception escapes one iteration of the worker iff the
command is of unsafe shape (neither a dict whose action value, when
present, is a string or a dict, nor a string without action as a
substring); on safe shapes, failures in resolution and execution are
caught and yield an absent result.  A queue of safe-shaped commands whose
contents stay within the modelled relay vocabulary is processed to the
end, one output per command.  (The contentInModel hypothesis is not needed
by the proof inside this model; it scopes the statement honestly, because
a content naming an unmodelled instance attribute, such as SETUP or
__INIT__, has side effects the relay-fragment model does not track.) -/
theorem safe_commands_cannot_kill_the_loop :
    (∀ (c : PyVal) (t : Transport), (analyse c t).isOk = safeShape c) ∧
    ∀ (cmds : List PyVal) (t : Transport),
      (∀ c ∈ cmds, safeShape c = true ∧ contentInModel c = true) →
      (runLoop cmds t).2.2 = Option.none ∧ (runLoop cmds t).1.length = cmds.length := by
  refine ⟨analyse_isOk_eq_safeShape, ?_⟩
  intro cmds
  induction cmds with
  | nil => exact fun t h => ⟨rfl, rfl⟩
  | cons c cs ih =>
    intro t h
    have hc : safeShape c = true := (h c (List.mem_cons_self c cs)).1
    have hOk : (analyse c t).isOk = true := by rw [analyse_isOk_eq_safeShape, hc]
    cases hA : analyse c t with
    | error e => rw [hA] at hOk; exact absurd hOk (by simp [Except.isOk, Except.toBool])
    | ok r =>
      obtain ⟨res, t2⟩ := r
      have hrest := ih t2 (fun x hx => h x (List.mem_cons_of_mem c hx))
      simp [runLoop, hA, hrest.1, hrest.2]

/-- C2 counterexample: the dict command whose action is the int 5 raises a
TypeError that escapes _analyse, and the loop run on it dies: the pending
well-formed status query behind it is never consumed and no output at all
is produced. -/
theorem c2_counterexample_typeerror_escapes :
    analyse (PyVal.dict [("action", PyVal.int 5)]) (mockTransport []) = .error PyErr.typeError ∧
    runLoop [PyVal.dict [("action", PyVal.int 5)],
             PyVal.dict [("action", PyVal.str "QUERY"), ("content", PyVal.str "STATUS")]]
        (mockTransport [7])
      = ([], mockTransport [7], some PyErr.typeError) :=
  ⟨rfl, rfl⟩

/-- Witness for C2: a one-command queue of safe shape runs to completion
with no escaping exception and exactly one output. -/
theorem c2_witness :
    (runLoop [PyVal.dict [("action", PyVal.str "QUERY"), ("content", PyVal.str "VERSION")]]
        (mockTransport [1, 2])).2.2 = Option.none ∧
    (runLoop [PyVal.dict [("action", PyVal.str "QUERY"), ("content", PyVal.str "VERSION")]]
        (mockTransport [1, 2])).1.length
      = [PyVal.dict [("action", PyVal.str "QUERY"), ("content", PyVal.str "VERSION")]].length :=
  safe_commands_cannot_kill_the_loop.2
    [PyVal.dict [("action", PyVal.str "QUERY"), ("content", PyVal.str "VERSION")]]
    (mockTransport [1, 2]) (by decide)

/-- The worker state before any command has run is the starting state. -/
lemma stateAfter_zero (l : List PyVal) (t : Transport) : stateAfter l t 0 = t := by
  cases l <;> rfl

/-- Unrolling stateAfter over a successfully analysed head command. -/
lemma stateAfter_cons_succ (c : PyVal) (cs : List PyVal) (t : Transport) (i : Nat)
    (res : Option PyVal) (t2 : Transport) (hA : analyse c t = .ok (res, t2)) :
    stateAfter (c :: cs) t (i + 1) = stateAfter cs t2 i := by
  simp [stateAfter, hA]

/-- Ordering inside the relay-fragment loop: at most one output per
consumed command, and the output at position i is exactly the result
_analyse produced for the command at position i, run in the transport
state left by the first i commands. -/
lemma outputs_match_inputs_in_order (cmds : List PyVal) (t : Transport) :
    (runLoop cmds t).1.length ≤ cmds.length ∧
    ∀ (i : Nat) (out : Option PyVal) (cmd : PyVal),
      (runLoop cmds t).1.get? i = some out → cmds.get? i = some cmd →
      analyse cmd (stateAfter cmds t i) = .ok (out, stateAfter cmds t (i + 1)) := by
  induction cmds generalizing t with
  | nil =>
    refine ⟨Nat.le_refl 0, fun i out cmd hOut hCmd => ?_⟩
    simp [runLoop] at hOut
  | cons c cs ih =>
    cases hA : analyse c t with
    | error e =>
      refine ⟨by simp [runLoop, hA], fun i out cmd hOut hCmd => ?_⟩
      simp [runLoop, hA] at hOut
    | ok r =>
      obtain ⟨res, t2⟩ := r
      refine ⟨?_, fun i out cmd hOut hCmd => ?_⟩
      · simp only [runLoop, hA, List.length_cons]
        exact Nat.succ_le_succ (ih t2).1
      · cases i with
        | zero =>
          simp [runLoop, hA] at hOut
          simp at hCmd
          rw [stateAfter_zero, stateAfter_cons_succ c cs t 0 res t2 hA, stateAfter_zero]
          rw [← hCmd, ← hOut]
          exact hA
        | succ j =>
          simp only [runLoop, hA, List.get?_cons_succ] at hOut
          simp only [List.get?_cons_succ] at hCmd
          rw [stateAfter_cons_succ c cs t (j + 1) res t2 hA,
              stateAfter_cons_succ c cs t j res t2 hA]
          exact (ih t2).2 j out cmd hOut hCmd

/-- A content within the modelled vocabulary never names the run method:
run is not in the relay-operation table. -/
lemma contentInModel_not_run (c : PyVal) (h : contentInModel c = true) :
    contentIsRun c = false := by
  cases c with
  | dict entries =>
    simp only [contentInModel] at h
    simp only [contentIsRun]
    cases hL : entries.lookup "content" with
    | none => rfl
    | some v =>
      rw [hL] at h
      cases v with
      | str lw =>
        have h2 : (resolveOp (pyLower lw)).isSome = true := h
        cases hR : pyLower lw == "run" with
        | false => exact hR
        | true =>
          exfalso
          rw [eq_of_beq hR] at h2
          exact absurd h2 (by decide)
      | int i => rfl
      | bytes bs => rfl
      | none => rfl
      | dict d => rfl
  | str a => rfl
  | int i => rfl
  | bytes bs => rfl
  | none => rfl

/-- On queues whose contents stay within the modelled relay vocabulary the
refined loop and the relay-fragment loop coincide: no command re-enters
run, so the worker consumes at depth 0 throughout. -/
lemma runLoopD_agrees (cmds : List PyVal) (t : Transport)
    (h : ∀ c ∈ cmds, contentInModel c = true) :
    runLoopD cmds t 0
      = ((runLoop cmds t).1, (runLoop cmds t).2.1, loopEndOfErr (runLoop cmds t).2.2) := by
  induction cmds generalizing t with
  | nil => rfl
  | cons c cs ih =>
    have hrun : contentIsRun c = false :=
      contentInModel_not_run c (h c (List.mem_cons_self c cs))
    have hcs : ∀ x ∈ cs, contentInModel x = true :=
      fun x hx => h x (List.mem_cons_of_mem c hx)
    have hnr : (reachesTry c && contentIsRun c) = false := by simp [hrun]
    cases hA : analyse c t with
    | error e => simp [runLoopD, runLoop, hnr, hA, loopEndOfErr]
    | ok r =>
      obtain ⟨res, t2⟩ := r
      simp [runLoopD, runLoop, hnr, hA, ih t2 hcs]

/-- C6 (amended): for every sequence of commands whose contents stay within
the relay vocabulary, the refined loop agrees with the relay-fragment loop
and output order matches input consumption order: the output at position i
is the result of the command at position i, run in the state left by its
predecessors, at most one output per consumed command.  A content naming
the worker's own run method re-enters the loop and breaks this pairing
(see the counterexample). -/
theorem ordered_outputs_for_relay_command_queues (cmds : List PyVal) (t : Transport)
    (h : ∀ c ∈ cmds, contentInModel c = true) :
    runLoopD cmds t 0
      = ((runLoop cmds t).1, (runLoop cmds t).2.1, loopEndOfErr (runLoop cmds t).2.2) ∧
    (runLoopD cmds t 0).1.length ≤ cmds.length ∧
    ∀ (i : Nat) (out : Option PyVal) (cmd : PyVal),
      (runLoopD cmds t 0).1.get? i = some out → cmds.get? i = some cmd →
      analyse cmd (stateAfter cmds t i) = .ok (out, stateAfter cmds t (i + 1)) := by
  have hAg := runLoopD_agrees cmds t h
  refine ⟨hAg, ?_, ?_⟩
  · rw [hAg]
    exact (outputs_match_inputs_in_order cmds t).1
  · rw [hAg]
    exact (outputs_match_inputs_in_order cmds t).2

/-- C6 counterexample: a queue holding the command with content RUN and
then a status query.  The worker consumes both (it ends stuck inside the
re-entered run with the queue drained), yet produces a single output, and
that output at position 0 is the result of the SECOND command, not of the
first: the Nth-output/Nth-command pairing fails. -/
theorem c6_counterexample_run_reentry :
    runLoopD [PyVal.dict [("action", PyVal.str "QUERY"), ("content", PyVal.str "RUN")],
              PyVal.dict [("action", PyVal.str "QUERY"), ("content", PyVal.str "STATUS")]]
        (mockTransport [9]) 0
      = ([some (PyVal.bytes [9])],
         { rxStream := [], trace := [TEvent.write [91], TEvent.sleep, TEvent.read 1],
           closed := false },
         LoopEnd.stuck) ∧
    analyse (PyVal.dict [("action", PyVal.str "QUERY"), ("content", PyVal.str "STATUS")])
        (mockTransport [9])
      = .ok (some (PyVal.bytes [9]),
             { rxStream := [], trace := [TEvent.write [91], TEvent.sleep, TEvent.read 1],
               closed := false }) ∧
    ([some (PyVal.bytes [9])] : List (Option PyVal)).length = 1 :=
  ⟨rfl, rfl, rfl⟩

/-- Witness for C6: a one-command relay queue agrees with the fragment
loop, and output 0 is the result of command 0 in the starting state. -/
theorem c6_witness :
    runLoopD [PyVal.dict [("action", PyVal.str "QUERY"), ("content", PyVal.str "VERSION")]]
        (mockTransport [1, 2]) 0
      = ((runLoop [PyVal.dict [("action", PyVal.str "QUERY"), ("content", PyVal.str "VERSION")]]
            (mockTransport [1, 2])).1,
         (runLoop [PyVal.dict [("action", PyVal.str "QUERY"), ("content", PyVal.str "VERSION")]]
            (mockTransport [1, 2])).2.1,
         loopEndOfErr
           (runLoop [PyVal.dict [("action", PyVal.str "QUERY"), ("content", PyVal.str "VERSION")]]
              (mockTransport [1, 2])).2.2) ∧
    analyse (PyVal.dict [("action", PyVal.str "QUERY"), ("content", PyVal.str "VERSION")])
        (stateAfter [PyVal.dict [("action", PyVal.str "QUERY"), ("content", PyVal.str "VERSION")]]
          (mockTransport [1, 2]) 0)
      = .ok (some (PyVal.bytes [1, 2]),
             stateAfter [PyVal.dict [("action", PyVal.str "QUERY"), ("content", PyVal.str "VERSION")]]
               (mockTransport [1, 2]) 1) :=
  ⟨(ordered_outputs_for_relay_command_queues
      [PyVal.dict [("action", PyVal.str "QUERY"), ("content", PyVal.str "VERSION")]]
      (mockTransport [1, 2]) (by decide)).1,
   (ordered_outputs_for_relay_command_queues
      [PyVal.dict [("action", PyVal.str "QUERY"), ("content", PyVal.str "VERSION")]]
      (mockTransport [1, 2]) (by decide)).2.2 0 (some (PyVal.bytes [1, 2]))
     (PyVal.dict [("action", PyVal.str "QUERY"), ("content", PyVal.str "VERSION")]) rfl rfl⟩

/-- C7: setup returns True exactly when opening the serial device with the
configured parameters (8 data bits, no parity, 1 stop bit) succeeds; when
the open raises, setup returns False and, if no handle was stored before,
the transport handle field is still unset afterwards. -/
theorem setup_true_iff_open_succeeds (env : SerialEnv) (st : RelayState) :
    ((setup env st).1 = true ↔ (env st.device st.bauds serialCfg).isOk = true) ∧
    ((env st.device st.bauds serialCfg).isOk = false → st.filedesc = Option.none →
      (setup env st).1 = false ∧ (setup env st).2.filedesc = Option.none) := by
  cases hE : env st.device st.bauds serialCfg with
  | ok fd =>
    refine ⟨?_, ?_⟩ <;> simp [setup, hE, Except.isOk, Except.toBool]
  | error e =>
    refine ⟨?_, fun _ hN => ?_⟩
    · simp [setup, hE, Except.isOk, Except.toBool]
    · refine ⟨?_, ?_⟩ <;> simp [setup, hE, hN]

/-- Witness for C7: against an environment whose open always raises, setup
on a fresh instance returns False and leaves the handle unset. -/
theorem c7_witness :
    ((setup envFail (LibRelay02.init "/dev/ttyACM0" 115200)).1 = true
      ↔ (envFail "/dev/ttyACM0" 115200 serialCfg).isOk = true) ∧
    (setup envFail (LibRelay02.init "/dev/ttyACM0" 115200)).1 = false ∧
    (setup envFail (LibRelay02.init "/dev/ttyACM0" 115200)).2.filedesc = Option.none :=
  ⟨(setup_true_iff_open_succeeds envFail (LibRelay02.init "/dev/ttyACM0" 115200)).1,
   (setup_true_iff_open_succeeds envFail (LibRelay02.init "/dev/ttyACM0" 115200)).2 rfl rfl⟩

/-- Clearing a queue empties it completely. -/
lemma clearQueue_eq_nil (q : List PyVal) : clearQueue q = [] := by
  induction q with
  | nil => rfl
  | cons a r ih => exact ih

/-- C8: on a dispatcher with an attached input queue and an open handle,
quit succeeds and afterwards the input queue is empty and the handle is
closed; the pending commands are discarded unexecuted (the closed handle
carries the same trace as before, so no byte was written for them) and the
output queue is untouched (no entry is produced for them). -/
theorem quit_drains_input_and_closes_transport (st : RelayState) (q : List PyVal)
    (fd : Transport) (h1 : st.inputQueue = some q) (h2 : st.filedesc = some fd) :
    quit st = .ok (quitResult st fd) ∧
    (quitResult st fd).inputQueue = some [] ∧
    (quitResult st fd).filedesc = some (closeTransport fd) ∧
    (closeTransport fd).closed = true ∧
    (closeTransport fd).trace = fd.trace ∧
    (quitResult st fd).outputQueue = st.outputQueue := by
  refine ⟨?_, rfl, rfl, rfl, rfl, rfl⟩
  simp [quit, h1, h2, clearQueue_eq_nil, quitResult]

/-- Witness for C8: quitting a fully attached dispatcher with one pending
query empties the input queue and closes the untouched transport. -/
theorem c8_witness :
    quit quitReadyState = .ok (quitResult quitReadyState (mockTransport [])) ∧
    (quitResult quitReadyState (mockTransport [])).inputQueue = some [] ∧
    (quitResult quitReadyState (mockTransport [])).filedesc
      = some (closeTransport (mockTransport [])) ∧
    (closeTransport (mockTransport [])).closed = true ∧
    (closeTransport (mockTransport [])).trace = (mockTransport []).trace ∧
    (quitResult quitReadyState (mockTransport [])).outputQueue
      = quitReadyState.outputQueue :=
  quit_drains_input_and_closes_transport quitReadyState
    [PyVal.dict [("action", PyVal.str "QUERY"), ("content", PyVal.str "STATUS")]]
    (mockTransport []) rfl rfl

/-- C10: a freshly constructed instance has no transport handle and no
input queue, and calling quit on any state in which either is still unset
raises an AttributeError instead of returning cleanly: quit has the
unstated precondition that setup and set_input_queue have run. -/
theorem quit_before_setup_raises :
    (∀ (d : String) (b : Nat), (LibRelay02.init d b).filedesc = Option.none ∧
        (LibRelay02.init d b).inputQueue = Option.none) ∧
    ∀ st : RelayState, st.inputQueue = Option.none ∨ st.filedesc = Option.none →
      quit st = .error PyErr.attributeError := by
  refine ⟨fun d b => ⟨rfl, rfl⟩, fun st h => ?_⟩
  rcases h with h | h
  · simp [quit, h]
  · cases hQ : st.inputQueue with
    | none => simp [quit, hQ]
    | some q => simp [quit, hQ, h]

/-- Witness for C10: quit on a freshly constructed instance raises. -/
theorem c10_witness :
    quit (LibRelay02.init "/dev/ttyACM0" 115200) = .error PyErr.attributeError :=
  quit_before_setup_raises.2 (LibRelay02.init "/dev/ttyACM0" 115200) (Or.inl rfl)
